import Mathlib

/-!
Shallow embedding of the mcp-navigator-go repository (Go): the Protocol
Client (`pkg/client`), the message types (`pkg/mcp/types.go`), the three
transports (`pkg/transport`) and the discovery engine
(`pkg/discovery/discovery.go`), together with theorems settling the
behavioural claims about them.

Go machine integers (`int64`) are modelled as `Int` with explicit
wrap-around where overflow matters; Go `float64` response identifiers are
modelled as exactly representable rationals, with the Go `int64(f)`
conversion modelled as truncation toward zero; Go strings that get parsed
are modelled as `List Char`; fallible Go functions return `Except`/`Option`.
-/

deriving instance DecidableEq for Except

/-! ## Numeric helpers: int64 wrap-around and float truncation -/

/-- Two's-complement wrap-around of `int64` arithmetic (`atomic.AddInt64`
wraps modulo 2^64 into the range `[-2^63, 2^63)`). -/
def wrap64 (x : Int) : Int := (x + 2 ^ 63) % 2 ^ 64 - 2 ^ 63

/-- Go's `int64(f)` conversion of an in-range `float64`: the fraction is
discarded, truncating toward zero. The `float64` value is modelled as the
rational it exactly represents (numerator tdiv denominator truncates
toward zero since the denominator is positive). -/
def truncFloat (q : ℚ) : Int := q.num.tdiv q.den

/-! ## Decimal parsing: model of `strconv.ParseInt(s, 10, 64)` -/

/-- A decimal digit character (`'0'` through `'9'`). -/
def isDigitCh (c : Char) : Bool := 48 ≤ c.toNat && c.toNat ≤ 57

/-- Parse a nonempty all-digit string as a base-10 natural number
(the digit-accumulation core of `strconv.ParseUint`). -/
def parseDigits (l : List Char) : Option Nat :=
  if l.isEmpty then none
  else if l.all isDigitCh then
    some (l.foldl (fun a c => a * 10 + (c.toNat - 48)) 0)
  else none

/-- Model of `strconv.ParseInt(s, 10, 64)`: an optional sign followed by
decimal digits, with the `int64` range check (`err == nil` iff `some`). -/
def parseInt64 (s : List Char) : Option Int :=
  match s with
  | [] => none
  | c :: rest =>
    if c = '-' then
      match parseDigits rest with
      | some m => if (m : Int) ≤ 2 ^ 63 then some (-(m : Int)) else none
      | none => none
    else if c = '+' then
      match parseDigits rest with
      | some m => if (m : Int) < 2 ^ 63 then some (m : Int) else none
      | none => none
    else
      match parseDigits (c :: rest) with
      | some m => if (m : Int) < 2 ^ 63 then some (m : Int) else none
      | none => none

/-- Canonical decimal digit string of a natural number (most significant
digit first); the wire form of an identifier that round-trips as a
numeric string. -/
def natDecimalChars (n : Nat) : List Char :=
  if n = 0 then ['0']
  else (Nat.digits 10 n).reverse.map fun d => Char.ofNat (48 + d)

/-! ## JSON identifier values and `isMatchingID` -/

/-- The dynamic value found in a JSON-RPC message's `ID interface{}` field
after unmarshaling: absent (`nil`), an `int64`, a `float64`, a Go `int`,
a string, or any other type (which the correlation switch falls through). -/
inductive JsonVal where
  | null
  | int64 (n : Int)
  | float (q : ℚ)
  | goInt (n : Int)
  | str (s : List Char)
  | other
deriving DecidableEq, Repr

/-- `Client.isMatchingID`: compares a response identifier against the
outstanding request identifier, handling JSON unmarshaling type
conversions (`int64`, `float64`, `int`, numeric string). -/
def isMatchingID (responseID : JsonVal) (requestID : Int) : Bool :=
  match responseID with
  | .null => false
  | .int64 n => n == requestID
  | .float q => truncFloat q == requestID
  | .goInt n => n == requestID
  | .str s =>
    match parseInt64 s with
    | some parsedID => parsedID == requestID
    | none => false
  | .other => false

example : isMatchingID (.int64 3) 3 = true := by decide
example : isMatchingID (.str ['4', '2']) 42 = true := by decide
example : isMatchingID (.str ['-', '7']) (-7) = true := by decide
example : isMatchingID .null 1 = false := by decide
example : isMatchingID (.float (mkRat 7 2)) 3 = true := by decide
example : isMatchingID (.float (mkRat 5 1)) 5 = true := by decide

/-! ## Message types (`pkg/mcp/types.go`) -/

/-- `mcp.ServerInfo`: name and version identity of the server. -/
structure ServerInfo where
  name : String
  version : String
deriving DecidableEq, Repr

/-- `mcp.ServerCapabilities`: which optional capability blocks the server
advertises (the presence of each optional sub-structure). -/
structure ServerCapabilities where
  hasLogging : Bool := false
  hasPrompts : Bool := false
  hasResources : Bool := false
  hasTools : Bool := false
deriving DecidableEq, Repr

/-- `mcp.ErrorInfo`: a JSON-RPC error object (code and message). -/
structure ErrorInfo where
  code : Int
  message : String
deriving DecidableEq, Repr

/-- The decoded shape of a response's `Result interface{}` payload, one
constructor per typed response structure the client parses into; `other`
stands for any payload that does not decode into the expected structure. -/
inductive ResultVal where
  | initRes (capabilities : ServerCapabilities) (serverInfo : ServerInfo)
  | toolsRes
  | callRes
  | resourcesRes
  | readRes
  | promptsRes
  | promptRes
  | other
deriving DecidableEq, Repr

/-- `mcp.Message`: a JSON-RPC 2.0 envelope as the client sees it after
unmarshaling (`JSONRPC` is the constant `"2.0"` and `Params` is opaque to
the receive path, so neither is carried). -/
structure Message where
  id : JsonVal := .null
  method : String := ""
  result : Option ResultVal := none
  error : Option ErrorInfo := none
deriving DecidableEq, Repr

/-- `mcp.NewRequest`: builds a request message carrying the given
identifier and method. -/
def NewRequest (id : Int) (method : String) : Message :=
  { id := .int64 id, method := method }

/-- `mcp.NewNotification`: builds a notification message (no identifier). -/
def NewNotification (method : String) : Message :=
  { id := .null, method := method }

/-! ## Transport behaviour and client state (`pkg/client/client.go`) -/

/-- The deterministic behaviour of the `transport.Transport` collaborator
during one client operation: what `IsConnected` reports, whether
`Send(request)` succeeds, the successive outcomes of `Receive()`
(`none` = receive error), and whether the follow-up `Send(notification)`
in `Initialize` succeeds. An exhausted receive list models the response
deadline expiring with no transport error (the server never answers). -/
structure TransportB where
  isConn : Bool := true
  sendOk : Bool := true
  recvs : List (Option Message) := []
  notifyOk : Bool := true
deriving DecidableEq, Repr

/-- `client.Client`: the mutable client state (transport handle and logger
omitted; `requestID` is the `int64` counter). -/
structure Client where
  connected : Bool := false
  initialized : Bool := false
  serverInfo : Option ServerInfo := none
  serverCapabilities : Option ServerCapabilities := none
  requestID : Int := 0
deriving DecidableEq, Repr

/-- `client.NewClient`: a fresh client (all flags clear, counter zero). -/
def NewClient : Client := {}

/-- `Client.IsConnected`. -/
def Client.IsConnected (c : Client) : Bool := c.connected

/-- `Client.IsInitialized`. -/
def Client.IsInitialized (c : Client) : Bool := c.initialized

/-- An I/O action performed on the transport during an operation. -/
inductive IOEvent where
  | send (m : Message)
  | recv (r : Option Message)
deriving DecidableEq, Repr

/-- The error `sendRequest` can return. -/
inductive ReqError where
  | transportDisconnected
  | sendFailed
  | receiveFailed
  | timeout
deriving DecidableEq, Repr

/-- `sendFailed` and `receiveFailed` are the transport I/O failures of a
request; `transportDisconnected` and `timeout` are not. -/
def ReqError.isIOFailure : ReqError → Bool
  | .sendFailed => true
  | .receiveFailed => true
  | _ => false

/-- The receive loop of `Client.sendRequest`: keep calling `Receive()`
until the correlated response arrives (non-matching messages are passed to
`handleMessage`, which only logs); a receive error marks the client
disconnected; an exhausted stream is the context deadline firing
(`request timeout`). Returns the result, the client state and the trace
of transport I/O performed. -/
def sendRequestLoop (c : Client) (recvs : List (Option Message)) (reqID : Int) :
    Except ReqError Message × Client × List IOEvent :=
  match recvs with
  | [] => (.error .timeout, c, [])
  | none :: _ =>
    (.error .receiveFailed, { c with connected := false, initialized := false },
      [.recv none])
  | some m :: rest =>
    if isMatchingID m.id reqID then (.ok m, c, [.recv (some m)])
    else
      let r := sendRequestLoop c rest reqID
      (r.1, r.2.1, .recv (some m) :: r.2.2)

/-- `Client.sendRequest`: assign the next request identifier by atomic
increment, build the request, refuse if the transport reports
disconnected, send it (a send failure marks the client disconnected),
then wait for the correlated response. -/
def Client.sendRequest (c : Client) (tr : TransportB) (method : String) :
    Except ReqError Message × Client × List IOEvent :=
  let reqID := wrap64 (c.requestID + 1)
  let c1 := { c with requestID := reqID }
  let req := NewRequest reqID method
  if !tr.isConn then (.error .transportDisconnected, c1, [])
  else if !tr.sendOk then
    (.error .sendFailed, { c1 with connected := false, initialized := false },
      [.send req])
  else
    let r := sendRequestLoop c1 tr.recvs reqID
    (r.1, r.2.1, .send req :: r.2.2)

/-- The error a high-level client operation can return. -/
inductive OpError where
  | notConnected
  | notInitialized
  | connectionCheckFailed
  | reqFailed (e : ReqError)
  | serverError (e : ErrorInfo)
  | parseFailed
  | notifySendFailed
deriving DecidableEq, Repr

/-- `Client.CheckConnection`: verifies the transport is still connected
and marks the client disconnected when it is not. -/
def Client.CheckConnection (c : Client) (tr : TransportB) :
    Except OpError Unit × Client :=
  if !tr.isConn then
    (.error .connectionCheckFailed, { c with connected := false, initialized := false })
  else (.ok (), c)

/-! ## High-level client operations -/

/-- `Client.Initialize`: requires the connected state, sends the
`initialize` request, rejects a response carrying an error object, parses
the result into server identity and capabilities and stores them together
with the `initialized` flag, then sends the fire-and-forget
`notifications/initialized` notification directly on the transport. -/
def Client.Initialize (c : Client) (tr : TransportB) :
    Except OpError Unit × Client × List IOEvent :=
  if !c.IsConnected then (.error .notConnected, c, [])
  else
    let r := c.sendRequest tr "initialize"
    match r.1 with
    | .error e => (.error (.reqFailed e), r.2.1, r.2.2)
    | .ok resp =>
      match resp.error with
      | some e => (.error (.serverError e), r.2.1, r.2.2)
      | none =>
        match resp.result with
        | some (.initRes caps info) =>
          let c2 := { r.2.1 with
            serverInfo := some info
            serverCapabilities := some caps
            initialized := true }
          let notif := NewNotification "notifications/initialized"
          if tr.notifyOk then (.ok (), c2, r.2.2 ++ [.send notif])
          else (.error .notifySendFailed, c2, r.2.2 ++ [.send notif])
        | _ => (.error .parseFailed, r.2.1, r.2.2)

/-- `Client.Disconnect`: a no-op when not connected; otherwise closes the
transport (`closeOk` = whether `transport.Close()` succeeded) and clears
the connected and initialized flags, the server identity and the server
capabilities, returning the transport's close error. -/
def Client.Disconnect (c : Client) (closeOk : Bool) : Option String × Client :=
  if !c.connected then (none, c)
  else
    let err := if closeOk then none else some "close failed"
    (err, { c with
      connected := false
      initialized := false
      serverInfo := none
      serverCapabilities := none })

/-- `Client.ListTools`: requires the initialized state, sends `tools/list`
and decodes the tool list from the result. -/
def Client.ListTools (c : Client) (tr : TransportB) :
    Except OpError ResultVal × Client × List IOEvent :=
  if !c.IsInitialized then (.error .notInitialized, c, [])
  else
    let r := c.sendRequest tr "tools/list"
    match r.1 with
    | .error e => (.error (.reqFailed e), r.2.1, r.2.2)
    | .ok resp =>
      match resp.error with
      | some e => (.error (.serverError e), r.2.1, r.2.2)
      | none =>
        match resp.result with
        | some .toolsRes => (.ok .toolsRes, r.2.1, r.2.2)
        | _ => (.error .parseFailed, r.2.1, r.2.2)

/-- `Client.CallTool`: requires the initialized state, additionally checks
connection liveness via `CheckConnection`, then sends `tools/call` and
decodes the call result. -/
def Client.CallTool (c : Client) (tr : TransportB) (_name : String) :
    Except OpError ResultVal × Client × List IOEvent :=
  if !c.IsInitialized then (.error .notInitialized, c, [])
  else
    let chk := c.CheckConnection tr
    match chk.1 with
    | .error e => (.error e, chk.2, [])
    | .ok _ =>
      let r := chk.2.sendRequest tr "tools/call"
      match r.1 with
      | .error e => (.error (.reqFailed e), r.2.1, r.2.2)
      | .ok resp =>
        match resp.error with
        | some e => (.error (.serverError e), r.2.1, r.2.2)
        | none =>
          match resp.result with
          | some .callRes => (.ok .callRes, r.2.1, r.2.2)
          | _ => (.error .parseFailed, r.2.1, r.2.2)

/-- `Client.ListResources`: requires the initialized state, sends
`resources/list` and decodes the resource list. -/
def Client.ListResources (c : Client) (tr : TransportB) :
    Except OpError ResultVal × Client × List IOEvent :=
  if !c.IsInitialized then (.error .notInitialized, c, [])
  else
    let r := c.sendRequest tr "resources/list"
    match r.1 with
    | .error e => (.error (.reqFailed e), r.2.1, r.2.2)
    | .ok resp =>
      match resp.error with
      | some e => (.error (.serverError e), r.2.1, r.2.2)
      | none =>
        match resp.result with
        | some .resourcesRes => (.ok .resourcesRes, r.2.1, r.2.2)
        | _ => (.error .parseFailed, r.2.1, r.2.2)

/-- `Client.ReadResource`: requires the initialized state, sends
`resources/read` for the given URI and decodes the contents. -/
def Client.ReadResource (c : Client) (tr : TransportB) (_uri : String) :
    Except OpError ResultVal × Client × List IOEvent :=
  if !c.IsInitialized then (.error .notInitialized, c, [])
  else
    let r := c.sendRequest tr "resources/read"
    match r.1 with
    | .error e => (.error (.reqFailed e), r.2.1, r.2.2)
    | .ok resp =>
      match resp.error with
      | some e => (.error (.serverError e), r.2.1, r.2.2)
      | none =>
        match resp.result with
        | some .readRes => (.ok .readRes, r.2.1, r.2.2)
        | _ => (.error .parseFailed, r.2.1, r.2.2)

/-- `Client.ListPrompts`: requires the initialized state, sends
`prompts/list` and decodes the prompt list. -/
def Client.ListPrompts (c : Client) (tr : TransportB) :
    Except OpError ResultVal × Client × List IOEvent :=
  if !c.IsInitialized then (.error .notInitialized, c, [])
  else
    let r := c.sendRequest tr "prompts/list"
    match r.1 with
    | .error e => (.error (.reqFailed e), r.2.1, r.2.2)
    | .ok resp =>
      match resp.error with
      | some e => (.error (.serverError e), r.2.1, r.2.2)
      | none =>
        match resp.result with
        | some .promptsRes => (.ok .promptsRes, r.2.1, r.2.2)
        | _ => (.error .parseFailed, r.2.1, r.2.2)

/-- `Client.GetPrompt`: requires the initialized state, sends
`prompts/get` for the named prompt and decodes the messages. -/
def Client.GetPrompt (c : Client) (tr : TransportB) (_name : String) :
    Except OpError ResultVal × Client × List IOEvent :=
  if !c.IsInitialized then (.error .notInitialized, c, [])
  else
    let r := c.sendRequest tr "prompts/get"
    match r.1 with
    | .error e => (.error (.reqFailed e), r.2.1, r.2.2)
    | .ok resp =>
      match resp.error with
      | some e => (.error (.serverError e), r.2.1, r.2.2)
      | none =>
        match resp.result with
        | some .promptRes => (.ok .promptRes, r.2.1, r.2.2)
        | _ => (.error .parseFailed, r.2.1, r.2.2)

/-! ## Transports (`pkg/transport`) -/

/-- An open pipe handle of the child process, carrying the error its
`Close()` will report (`none` = close succeeds). -/
structure Pipe where
  closeErr : Option String := none
deriving DecidableEq, Repr

/-- The child process handle (`cmd.Process`), carrying the error `Kill()`
will report and the error `Wait()` would report. -/
structure ProcState where
  killErr : Option String := none
  waitErr : Option String := none
deriving DecidableEq, Repr

/-- `transport.StdioTransport`: the process-pipe (STDIO) transport state
(command, reader and writer omitted; `none` = a nil handle). -/
structure StdioTransport where
  connected : Bool := false
  stdin : Option Pipe := none
  stdout : Option Pipe := none
  stderr : Option Pipe := none
  process : Option ProcState := none
deriving DecidableEq, Repr

/-- `transport.NewStdioTransport`: a fresh, never-connected STDIO
transport. -/
def NewStdioTransport : StdioTransport := {}

/-- One cleanup step performed by `StdioTransport.Close`. -/
inductive CloseStep where
  | closeStdin
  | closeStdout
  | closeStderr
  | killProcess
  | waitProcess
deriving DecidableEq, Repr

/-- `StdioTransport.Close`: a no-op returning nil when not connected;
otherwise closes stdin, stdout and stderr, kills the process if present
and waits for it, appending the error of each pipe close and of the kill
to `errs` (the `Wait()` return value is discarded by the code), nils out
every handle, and returns the aggregated error (`some errs`) iff `errs`
is nonempty. Also returns the ordered list of cleanup steps performed. -/
def StdioTransport.close (s : StdioTransport) :
    Option (List String) × List CloseStep × StdioTransport :=
  if !s.connected then (none, [], s)
  else
    let stdinR : List CloseStep × List String :=
      match s.stdin with
      | some p => ([.closeStdin], p.closeErr.toList)
      | none => ([], [])
    let stdoutR : List CloseStep × List String :=
      match s.stdout with
      | some p => ([.closeStdout], p.closeErr.toList)
      | none => ([], [])
    let stderrR : List CloseStep × List String :=
      match s.stderr with
      | some p => ([.closeStderr], p.closeErr.toList)
      | none => ([], [])
    let procR : List CloseStep × List String :=
      match s.process with
      | some pr => ([.killProcess, .waitProcess], pr.killErr.toList)
      | none => ([], [])
    let steps := stdinR.1 ++ stdoutR.1 ++ stderrR.1 ++ procR.1
    let errs := stdinR.2 ++ stdoutR.2 ++ stderrR.2 ++ procR.2
    let s' : StdioTransport := { connected := false }
    (if errs.isEmpty then none else some errs, steps, s')

/-- `transport.TCPTransport`: the TCP transport state (`conn` carries the
error its `Close()` will report; `none` = a nil connection). -/
structure TCPTransport where
  connected : Bool := false
  conn : Option Pipe := none
deriving DecidableEq, Repr

/-- `transport.NewTCPTransport`: a fresh, never-connected TCP transport. -/
def NewTCPTransport : TCPTransport := {}

/-- `TCPTransport.Close`: a no-op returning nil when not connected or the
connection handle is nil; otherwise closes the connection, clears the
state and returns the connection's close error. -/
def TCPTransport.close (t : TCPTransport) : Option String × TCPTransport :=
  if !t.connected || t.conn.isNone then (none, t)
  else ((t.conn.map Pipe.closeErr).join, { connected := false })

/-- `transport.WebSocketTransport`: the WebSocket transport state (`conn`
carries the error its `Close()` will report; `none` = a nil connection). -/
structure WebSocketTransport where
  connected : Bool := false
  conn : Option Pipe := none
deriving DecidableEq, Repr

/-- `transport.NewWebSocketTransport`: a fresh, never-connected WebSocket
transport. -/
def NewWebSocketTransport : WebSocketTransport := {}

/-- `WebSocketTransport.Close`: a no-op returning nil when not connected
or the connection handle is nil; otherwise signals the pumps to stop,
closes the connection, clears the state and returns the connection's
close error. -/
def WebSocketTransport.close (w : WebSocketTransport) :
    Option String × WebSocketTransport :=
  if !w.connected || w.conn.isNone then (none, w)
  else ((w.conn.map Pipe.closeErr).join, { connected := false })

/-! ## Discovery engine (`pkg/discovery/discovery.go`) -/

namespace Discovery

/-- The transport configuration a discovered-server descriptor carries
(ready to use, unconnected). -/
inductive DTransport where
  | tcp (host : String) (port : Int)
  | stdio (command : String) (args : List String)
deriving DecidableEq, Repr

/-- `discovery.ServerInfo`: a discovered-server descriptor. -/
structure ServerInfo where
  name : String
  type : String
  address : String
  port : Int
  transport : DTransport
  description : String
deriving DecidableEq, Repr

/-- `discovery.DockerContainer`: one running container as parsed from
`docker ps` output. -/
structure DockerContainer where
  id : String
  name : String
  image : String
  ports : List String
deriving DecidableEq, Repr

/-- The environment discovery probes: which TCP ports on the target host
are open, whether Docker is available, and the running containers. -/
structure Env where
  portOpen : Int → Bool
  dockerAvailable : Bool
  containers : List DockerContainer

/-- `strings.Contains`: whether `sub` occurs as a contiguous substring. -/
def containsStr (s sub : String) : Bool := decide (sub.data <:+: s.data)

/-- The MCP-related keywords looked for in container names and images. -/
def mcpKeywords : List String := ["mcp", "model-context-protocol", "context"]

/-- `Discovery.isMCPContainer`: a container is treated as an MCP server
when its lowercased name or image contains an MCP keyword, or one of its
port strings contains `8811` or `3000`. -/
def isMCPContainer (c : DockerContainer) : Bool :=
  let name := c.name.toLower
  let image := c.image.toLower
  (mcpKeywords.any fun k => containsStr name k || containsStr image k) ||
    (c.ports.any fun p => containsStr p "8811" || containsStr p "3000")

/-- The descriptor built for an open TCP port. -/
def tcpServer (host : String) (port : Int) : ServerInfo :=
  { name := s!"TCP Server {host}:{port}"
    type := "tcp"
    address := host
    port := port
    transport := .tcp host port
    description := s!"MCP server on TCP {host}:{port}" }

/-- `Discovery.DiscoverTCPServers`: probes each port in order and keeps a
descriptor for every open one. -/
def DiscoverTCPServers (env : Env) (host : String) (ports : List Int) :
    List ServerInfo :=
  (ports.filter env.portOpen).map (tcpServer host)

/-- `Discovery.createDockerTransport`: a `docker exec -i <id> sh` STDIO
transport for a container. -/
def createDockerTransport (c : DockerContainer) : DTransport :=
  .stdio "docker" ["exec", "-i", c.id, "sh"]

/-- The descriptor built for an MCP-looking container. -/
def dockerServer (c : DockerContainer) : ServerInfo :=
  { name := s!"Docker Container {c.name}"
    type := "docker"
    address := c.id
    port := 0
    transport := createDockerTransport c
    description := s!"MCP server in Docker container {c.name}" }

/-- `Discovery.DiscoverDockerServers`: empty when Docker is unavailable;
otherwise a descriptor for every container that looks like an MCP
server. -/
def DiscoverDockerServers (env : Env) : List ServerInfo :=
  if !env.dockerAvailable then []
  else (env.containers.filter isMCPContainer).map dockerServer

/-- The well-known port list of `Discovery.DiscoverCommonPorts`. -/
def commonPorts : List Int := [8811, 8080, 3000, 4000, 5000, 8000, 8888, 9000]

/-- `Discovery.DiscoverCommonPorts`: probes the well-known port list. -/
def DiscoverCommonPorts (env : Env) (host : String) : List ServerInfo :=
  DiscoverTCPServers env host commonPorts

/-- `Discovery.CreateDockerMCPTransport`: a direct TCP transport to
`localhost:8811`. -/
def CreateDockerMCPTransport : DTransport := .tcp "localhost" 8811

/-- The static well-known bridge descriptor appended by `DiscoverAll`. -/
def dockerMCPEntry : ServerInfo :=
  { name := "Docker MCP (Direct TCP)"
    type := "docker"
    address := "localhost"
    port := 8811
    transport := CreateDockerMCPTransport
    description :=
      "Standard Docker MCP server using direct TCP connection to localhost:8811" }

/-- `Discovery.DiscoverAll`: port probing over the well-known ports, then
container discovery, then the static bridge entry, concatenated in that
order with no deduplication. -/
def DiscoverAll (env : Env) (host : String) : List ServerInfo :=
  DiscoverCommonPorts env host ++ DiscoverDockerServers env ++ [dockerMCPEntry]

end Discovery

/-- The identifiers assigned to a sequence of requests issued through one
client instance: each call to `sendRequest` (whatever its transport
behaviour and method) assigns `wrap64 (requestID + 1)` and threads the
resulting client state into the next call. -/
def runIDs (c : Client) (reqs : List (TransportB × String)) : List Int :=
  match reqs with
  | [] => []
  | (tr, m) :: rest =>
    let r := c.sendRequest tr m
    wrap64 (c.requestID + 1) :: runIDs r.2.1 rest

/-! ## Core lemmas about `sendRequest` -/

theorem wrap64_eq_self {x : Int} (h1 : -(2 ^ 63) ≤ x) (h2 : x < 2 ^ 63) :
    wrap64 x = x := by
  unfold wrap64
  omega

theorem sendRequestLoop_cases (recvs : List (Option Message)) (c : Client)
    (reqID : Int) :
    ((sendRequestLoop c recvs reqID).1 = .error .receiveFailed ∧
      (sendRequestLoop c recvs reqID).2.1 =
        { c with connected := false, initialized := false }) ∨
    (((sendRequestLoop c recvs reqID).1 = .error .timeout ∨
        ∃ msg, (sendRequestLoop c recvs reqID).1 = .ok msg) ∧
      (sendRequestLoop c recvs reqID).2.1 = c) := by
  induction recvs with
  | nil => right; simp [sendRequestLoop]
  | cons hd tl ih =>
    cases hd with
    | none => left; simp [sendRequestLoop]
    | some m =>
      by_cases hm : isMatchingID m.id reqID
      · right; simp [sendRequestLoop, hm]
      · simpa [sendRequestLoop, hm] using ih

theorem sendRequest_requestID (c : Client) (tr : TransportB) (m : String) :
    (c.sendRequest tr m).2.1.requestID = wrap64 (c.requestID + 1) := by
  unfold Client.sendRequest
  by_cases hc : tr.isConn
  · by_cases hs : tr.sendOk
    · simp only [hc, hs, Bool.not_true, Bool.false_eq_true, if_false]
      rcases sendRequestLoop_cases tr.recvs { c with requestID := wrap64 (c.requestID + 1) }
          (wrap64 (c.requestID + 1)) with ⟨_, h⟩ | ⟨_, h⟩ <;> simp [h]
    · simp [hc, hs]
  · simp [hc]

theorem sendRequest_io_fail (c : Client) (tr : TransportB) (m : String)
    (e : ReqError) (h : (c.sendRequest tr m).1 = .error e)
    (hio : e.isIOFailure = true) :
    (c.sendRequest tr m).2.1 =
      { c with requestID := wrap64 (c.requestID + 1), connected := false,
               initialized := false } := by
  unfold Client.sendRequest at h ⊢
  by_cases hc : tr.isConn
  · by_cases hs : tr.sendOk
    · simp only [hc, hs, Bool.not_true, Bool.false_eq_true, if_false] at h ⊢
      rcases sendRequestLoop_cases tr.recvs { c with requestID := wrap64 (c.requestID + 1) }
          (wrap64 (c.requestID + 1)) with ⟨h1, h2⟩ | ⟨h1, h2⟩
      · simp [h2]
      · exfalso
        rcases h1 with h1 | ⟨msg, h1⟩
        · rw [h1] at h
          cases h
          simp [ReqError.isIOFailure] at hio
        · rw [h1] at h
          cases h
    · simp [hc, hs]
  · rw [if_pos (by simp [hc])] at h
    cases h
    simp [ReqError.isIOFailure] at hio

theorem sendRequest_timeout (c : Client) (tr : TransportB) (m : String)
    (h : (c.sendRequest tr m).1 = .error .timeout) :
    (c.sendRequest tr m).2.1 = { c with requestID := wrap64 (c.requestID + 1) } := by
  unfold Client.sendRequest at h ⊢
  by_cases hc : tr.isConn
  · by_cases hs : tr.sendOk
    · simp only [hc, hs, Bool.not_true, Bool.false_eq_true, if_false] at h ⊢
      rcases sendRequestLoop_cases tr.recvs { c with requestID := wrap64 (c.requestID + 1) }
          (wrap64 (c.requestID + 1)) with ⟨h1, h2⟩ | ⟨h1, h2⟩
      · rw [h1] at h
        cases h
      · simp [h2]
    · simp [hc, hs] at h
  · simp [hc]

theorem ListTools_reqFailed (c : Client) (tr : TransportB) (e : ReqError)
    (h : (c.ListTools tr).1 = .error (.reqFailed e)) :
    (c.ListTools tr).2.1 = (c.sendRequest tr "tools/list").2.1 ∧
      (c.sendRequest tr "tools/list").1 = .error e := by
  unfold Client.ListTools at h ⊢
  by_cases hi : c.IsInitialized
  · simp only [hi, Bool.not_true, Bool.false_eq_true, if_false] at h ⊢
    rcases hr : (c.sendRequest tr "tools/list").1 with e' | resp
    · simp only [hr] at h ⊢
      simp at h
      simp [h]
    · simp only [hr] at h ⊢
      rcases he : resp.error with _ | err
      · rcases hres : resp.result with _ | res
        · simp [he, hres] at h
        · rcases res <;> simp [he, hres] at h
      · simp [he] at h
  · simp [hi] at h

theorem ListResources_reqFailed (c : Client) (tr : TransportB) (e : ReqError)
    (h : (c.ListResources tr).1 = .error (.reqFailed e)) :
    (c.ListResources tr).2.1 = (c.sendRequest tr "resources/list").2.1 ∧
      (c.sendRequest tr "resources/list").1 = .error e := by
  unfold Client.ListResources at h ⊢
  by_cases hi : c.IsInitialized
  · simp only [hi, Bool.not_true, Bool.false_eq_true, if_false] at h ⊢
    rcases hr : (c.sendRequest tr "resources/list").1 with e' | resp
    · simp only [hr] at h ⊢
      simp at h
      simp [h]
    · simp only [hr] at h ⊢
      rcases he : resp.error with _ | err
      · rcases hres : resp.result with _ | res
        · simp [he, hres] at h
        · rcases res <;> simp [he, hres] at h
      · simp [he] at h
  · simp [hi] at h

theorem ReadResource_reqFailed (c : Client) (tr : TransportB) (uri : String)
    (e : ReqError) (h : (c.ReadResource tr uri).1 = .error (.reqFailed e)) :
    (c.ReadResource tr uri).2.1 = (c.sendRequest tr "resources/read").2.1 ∧
      (c.sendRequest tr "resources/read").1 = .error e := by
  unfold Client.ReadResource at h ⊢
  by_cases hi : c.IsInitialized
  · simp only [hi, Bool.not_true, Bool.false_eq_true, if_false] at h ⊢
    rcases hr : (c.sendRequest tr "resources/read").1 with e' | resp
    · simp only [hr] at h ⊢
      simp at h
      simp [h]
    · simp only [hr] at h ⊢
      rcases he : resp.error with _ | err
      · rcases hres : resp.result with _ | res
        · simp [he, hres] at h
        · rcases res <;> simp [he, hres] at h
      · simp [he] at h
  · simp [hi] at h

theorem ListPrompts_reqFailed (c : Client) (tr : TransportB) (e : ReqError)
    (h : (c.ListPrompts tr).1 = .error (.reqFailed e)) :
    (c.ListPrompts tr).2.1 = (c.sendRequest tr "prompts/list").2.1 ∧
      (c.sendRequest tr "prompts/list").1 = .error e := by
  unfold Client.ListPrompts at h ⊢
  by_cases hi : c.IsInitialized
  · simp only [hi, Bool.not_true, Bool.false_eq_true, if_false] at h ⊢
    rcases hr : (c.sendRequest tr "prompts/list").1 with e' | resp
    · simp only [hr] at h ⊢
      simp at h
      simp [h]
    · simp only [hr] at h ⊢
      rcases he : resp.error with _ | err
      · rcases hres : resp.result with _ | res
        · simp [he, hres] at h
        · rcases res <;> simp [he, hres] at h
      · simp [he] at h
  · simp [hi] at h

theorem GetPrompt_reqFailed (c : Client) (tr : TransportB) (name : String)
    (e : ReqError) (h : (c.GetPrompt tr name).1 = .error (.reqFailed e)) :
    (c.GetPrompt tr name).2.1 = (c.sendRequest tr "prompts/get").2.1 ∧
      (c.sendRequest tr "prompts/get").1 = .error e := by
  unfold Client.GetPrompt at h ⊢
  by_cases hi : c.IsInitialized
  · simp only [hi, Bool.not_true, Bool.false_eq_true, if_false] at h ⊢
    rcases hr : (c.sendRequest tr "prompts/get").1 with e' | resp
    · simp only [hr] at h ⊢
      simp at h
      simp [h]
    · simp only [hr] at h ⊢
      rcases he : resp.error with _ | err
      · rcases hres : resp.result with _ | res
        · simp [he, hres] at h
        · rcases res <;> simp [he, hres] at h
      · simp [he] at h
  · simp [hi] at h

theorem CallTool_reqFailed (c : Client) (tr : TransportB) (name : String)
    (e : ReqError) (h : (c.CallTool tr name).1 = .error (.reqFailed e)) :
    (c.CallTool tr name).2.1 = (c.sendRequest tr "tools/call").2.1 ∧
      (c.sendRequest tr "tools/call").1 = .error e := by
  unfold Client.CallTool at h ⊢
  by_cases hi : c.IsInitialized
  · by_cases hc : tr.isConn
    · simp only [hi, Bool.not_true, Bool.false_eq_true, if_false,
        Client.CheckConnection, hc] at h ⊢
      rcases hr : (c.sendRequest tr "tools/call").1 with e' | resp
      · simp only [hr] at h ⊢
        simp at h
        simp [h]
      · simp only [hr] at h ⊢
        rcases he : resp.error with _ | err
        · rcases hres : resp.result with _ | res
          · simp [he, hres] at h
          · rcases res <;> simp [he, hres] at h
        · simp [he] at h
    · simp [hi, Client.CheckConnection, hc] at h
  · simp [hi] at h

theorem Initialize_reqFailed (c : Client) (tr : TransportB) (e : ReqError)
    (h : (c.Initialize tr).1 = .error (.reqFailed e)) :
    (c.Initialize tr).2.1 = (c.sendRequest tr "initialize").2.1 ∧
      (c.sendRequest tr "initialize").1 = .error e := by
  unfold Client.Initialize at h ⊢
  by_cases hco : c.IsConnected
  · simp only [hco, Bool.not_true, Bool.false_eq_true, if_false] at h ⊢
    rcases hr : (c.sendRequest tr "initialize").1 with e' | resp
    · simp only [hr] at h ⊢
      simp at h
      simp [h]
    · simp only [hr] at h ⊢
      rcases he : resp.error with _ | err
      · rcases hres : resp.result with _ | res
        · simp [he, hres] at h
        · rcases res with ⟨caps, info⟩ | _ | _ | _ | _ | _ | _ | _ <;>
            [skip; simp [he, hres] at h; simp [he, hres] at h; simp [he, hres] at h;
             simp [he, hres] at h; simp [he, hres] at h; simp [he, hres] at h;
             simp [he, hres] at h]
          by_cases hn : tr.notifyOk <;> simp [he, hres, hn] at h
      · simp [he] at h
  · simp [hco] at h

/-! ## Claim theorems -/

/-- After a transport I/O failure: the connected and initialized flags are
cleared while the stored server identity and capabilities are retained. -/
def ioFailureClears (c c' : Client) : Prop :=
  c'.connected = false ∧ c'.initialized = false ∧
    c'.serverInfo = c.serverInfo ∧ c'.serverCapabilities = c.serverCapabilities

/-- C1 (counterexample): a connected, initialized client with a stored
server identity issues `ListTools` against a transport whose `Send`
fails; the operation returns the send failure, yet the stored server
identity and capabilities are NOT cleared — refuting the claim that all
four state components are cleared on a transport send/receive failure. -/
theorem C1_counterexample :
    (Client.ListTools
        { connected := true, initialized := true,
          serverInfo := some { name := "demo", version := "1.0.0" },
          serverCapabilities := some {}, requestID := 0 }
        { sendOk := false }).1 = .error (.reqFailed .sendFailed) ∧
    ¬((Client.ListTools
        { connected := true, initialized := true,
          serverInfo := some { name := "demo", version := "1.0.0" },
          serverCapabilities := some {}, requestID := 0 }
        { sendOk := false }).2.1.serverInfo = none ∧
      (Client.ListTools
        { connected := true, initialized := true,
          serverInfo := some { name := "demo", version := "1.0.0" },
          serverCapabilities := some {}, requestID := 0 }
        { sendOk := false }).2.1.serverCapabilities = none) := by
  decide

/-- C1 (amended): for every high-level operation, a transport `Send` or
`Receive` failure during the request clears the connected and initialized
flags before the operation returns its error, while the stored server
identity and server capabilities are retained (they are only cleared by
`Disconnect`). -/
theorem C1_theorem (c : Client) (tr : TransportB) (nm uri pn : String)
    (e : ReqError) (hio : e.isIOFailure = true) :
    ((c.Initialize tr).1 = .error (.reqFailed e) →
      ioFailureClears c (c.Initialize tr).2.1) ∧
    ((c.ListTools tr).1 = .error (.reqFailed e) →
      ioFailureClears c (c.ListTools tr).2.1) ∧
    ((c.CallTool tr nm).1 = .error (.reqFailed e) →
      ioFailureClears c (c.CallTool tr nm).2.1) ∧
    ((c.ListResources tr).1 = .error (.reqFailed e) →
      ioFailureClears c (c.ListResources tr).2.1) ∧
    ((c.ReadResource tr uri).1 = .error (.reqFailed e) →
      ioFailureClears c (c.ReadResource tr uri).2.1) ∧
    ((c.ListPrompts tr).1 = .error (.reqFailed e) →
      ioFailureClears c (c.ListPrompts tr).2.1) ∧
    ((c.GetPrompt tr pn).1 = .error (.reqFailed e) →
      ioFailureClears c (c.GetPrompt tr pn).2.1) := by
  refine ⟨fun h => ?_, fun h => ?_, fun h => ?_, fun h => ?_, fun h => ?_,
    fun h => ?_, fun h => ?_⟩
  · obtain ⟨hst, hsr⟩ := Initialize_reqFailed c tr e h
    rw [hst, sendRequest_io_fail c tr _ e hsr hio]
    simp [ioFailureClears]
  · obtain ⟨hst, hsr⟩ := ListTools_reqFailed c tr e h
    rw [hst, sendRequest_io_fail c tr _ e hsr hio]
    simp [ioFailureClears]
  · obtain ⟨hst, hsr⟩ := CallTool_reqFailed c tr nm e h
    rw [hst, sendRequest_io_fail c tr _ e hsr hio]
    simp [ioFailureClears]
  · obtain ⟨hst, hsr⟩ := ListResources_reqFailed c tr e h
    rw [hst, sendRequest_io_fail c tr _ e hsr hio]
    simp [ioFailureClears]
  · obtain ⟨hst, hsr⟩ := ReadResource_reqFailed c tr uri e h
    rw [hst, sendRequest_io_fail c tr _ e hsr hio]
    simp [ioFailureClears]
  · obtain ⟨hst, hsr⟩ := ListPrompts_reqFailed c tr e h
    rw [hst, sendRequest_io_fail c tr _ e hsr hio]
    simp [ioFailureClears]
  · obtain ⟨hst, hsr⟩ := GetPrompt_reqFailed c tr pn e h
    rw [hst, sendRequest_io_fail c tr _ e hsr hio]
    simp [ioFailureClears]

/-- C1 (witness): the amended claim applied to a concrete connected,
initialized client whose transport send fails during `ListTools`. -/
theorem C1_witness :
    ioFailureClears
      { connected := true, initialized := true,
        serverInfo := some { name := "demo", version := "1.0.0" },
        serverCapabilities := some {}, requestID := 0 }
      (Client.ListTools
        { connected := true, initialized := true,
          serverInfo := some { name := "demo", version := "1.0.0" },
          serverCapabilities := some {}, requestID := 0 }
        { sendOk := false }).2.1 :=
  (C1_theorem _ _ "t" "u" "p" .sendFailed rfl).2.1 (by decide)

/-- After a pure timeout: every connection-state component of the client
is unchanged, and a client that was connected still reports connected. -/
def timeoutFrames (c c' : Client) : Prop :=
  c'.connected = c.connected ∧ c'.initialized = c.initialized ∧
    c'.serverInfo = c.serverInfo ∧ c'.serverCapabilities = c.serverCapabilities ∧
    (c.connected = true → c'.IsConnected = true)

/-- C4: a request whose correlated-response wait expires with no transport
send/receive error returns the timeout failure and leaves the client's
connection state untouched — for the request primitive itself and for
every high-level operation wrapping it — so a subsequent `IsConnected()`
still reports connected. -/
theorem C4_theorem (c : Client) (tr : TransportB) (m nm uri pn : String) :
    ((c.sendRequest tr m).1 = .error .timeout →
      timeoutFrames c (c.sendRequest tr m).2.1) ∧
    ((c.Initialize tr).1 = .error (.reqFailed .timeout) →
      timeoutFrames c (c.Initialize tr).2.1) ∧
    ((c.ListTools tr).1 = .error (.reqFailed .timeout) →
      timeoutFrames c (c.ListTools tr).2.1) ∧
    ((c.CallTool tr nm).1 = .error (.reqFailed .timeout) →
      timeoutFrames c (c.CallTool tr nm).2.1) ∧
    ((c.ListResources tr).1 = .error (.reqFailed .timeout) →
      timeoutFrames c (c.ListResources tr).2.1) ∧
    ((c.ReadResource tr uri).1 = .error (.reqFailed .timeout) →
      timeoutFrames c (c.ReadResource tr uri).2.1) ∧
    ((c.ListPrompts tr).1 = .error (.reqFailed .timeout) →
      timeoutFrames c (c.ListPrompts tr).2.1) ∧
    ((c.GetPrompt tr pn).1 = .error (.reqFailed .timeout) →
      timeoutFrames c (c.GetPrompt tr pn).2.1) := by
  refine ⟨fun h => ?_, fun h => ?_, fun h => ?_, fun h => ?_, fun h => ?_,
    fun h => ?_, fun h => ?_, fun h => ?_⟩
  · rw [sendRequest_timeout c tr m h]
    simp [timeoutFrames, Client.IsConnected]
  · obtain ⟨hst, hsr⟩ := Initialize_reqFailed c tr .timeout h
    rw [hst, sendRequest_timeout c tr _ hsr]
    simp [timeoutFrames, Client.IsConnected]
  · obtain ⟨hst, hsr⟩ := ListTools_reqFailed c tr .timeout h
    rw [hst, sendRequest_timeout c tr _ hsr]
    simp [timeoutFrames, Client.IsConnected]
  · obtain ⟨hst, hsr⟩ := CallTool_reqFailed c tr nm .timeout h
    rw [hst, sendRequest_timeout c tr _ hsr]
    simp [timeoutFrames, Client.IsConnected]
  · obtain ⟨hst, hsr⟩ := ListResources_reqFailed c tr .timeout h
    rw [hst, sendRequest_timeout c tr _ hsr]
    simp [timeoutFrames, Client.IsConnected]
  · obtain ⟨hst, hsr⟩ := ReadResource_reqFailed c tr uri .timeout h
    rw [hst, sendRequest_timeout c tr _ hsr]
    simp [timeoutFrames, Client.IsConnected]
  · obtain ⟨hst, hsr⟩ := ListPrompts_reqFailed c tr .timeout h
    rw [hst, sendRequest_timeout c tr _ hsr]
    simp [timeoutFrames, Client.IsConnected]
  · obtain ⟨hst, hsr⟩ := GetPrompt_reqFailed c tr pn .timeout h
    rw [hst, sendRequest_timeout c tr _ hsr]
    simp [timeoutFrames, Client.IsConnected]

/-- C4 (witness): a concrete connected, initialized client sends
`ListTools` against a transport that never responds; the result is the
timeout failure and the client still reports connected. -/
theorem C4_witness :
    timeoutFrames
      { connected := true, initialized := true, requestID := 0 }
      (Client.ListTools
        { connected := true, initialized := true, requestID := 0 }
        { recvs := [] }).2.1 :=
  (C4_theorem { connected := true, initialized := true, requestID := 0 }
    { recvs := [] } "m" "t" "u" "p").2.2.1 (by decide)

/-- C8: `Initialize` on a non-connected client fails with the
"not connected" local error, and every high-level operation on a
non-initialized client fails with the "not initialized" local error; in
each case the client state is unchanged and no transport I/O is performed
(the I/O trace is empty). -/
theorem C8_theorem (c : Client) (tr : TransportB) (nm uri pn : String) :
    (c.connected = false →
      c.Initialize tr = (.error .notConnected, c, [])) ∧
    (c.initialized = false →
      c.ListTools tr = (.error .notInitialized, c, []) ∧
      c.CallTool tr nm = (.error .notInitialized, c, []) ∧
      c.ListResources tr = (.error .notInitialized, c, []) ∧
      c.ReadResource tr uri = (.error .notInitialized, c, []) ∧
      c.ListPrompts tr = (.error .notInitialized, c, []) ∧
      c.GetPrompt tr pn = (.error .notInitialized, c, [])) := by
  constructor
  · intro h
    simp [Client.Initialize, Client.IsConnected, h]
  · intro h
    refine ⟨?_, ?_, ?_, ?_, ?_, ?_⟩ <;>
      simp [Client.ListTools, Client.CallTool, Client.ListResources,
        Client.ReadResource, Client.ListPrompts, Client.GetPrompt,
        Client.IsInitialized, h]

/-- C8 (witness): the guards applied to a fresh client. -/
theorem C8_witness :
    NewClient.Initialize {} = (.error .notConnected, NewClient, []) ∧
    NewClient.ListTools {} = (.error .notInitialized, NewClient, []) := by
  exact ⟨(C8_theorem NewClient {} "t" "u" "p").1 rfl,
    ((C8_theorem NewClient {} "t" "u" "p").2 rfl).1⟩

/-- C9: `Disconnect` is idempotent — whatever a first `Disconnect` did,
a second `Disconnect` returns no error and leaves the client state
unchanged — and `Close` on a never-connected transport returns no error
for each of the three transport variants. -/
theorem C9_theorem (c : Client) (ok1 ok2 : Bool) :
    Client.Disconnect (Client.Disconnect c ok1).2 ok2 =
      (none, (Client.Disconnect c ok1).2) ∧
    NewStdioTransport.close = (none, [], NewStdioTransport) ∧
    NewTCPTransport.close = (none, NewTCPTransport) ∧
    NewWebSocketTransport.close = (none, NewWebSocketTransport) := by
  refine ⟨?_, by decide, by decide, by decide⟩
  have h : (Client.Disconnect c ok1).2.connected = false := by
    by_cases hc : c.connected <;> simp [Client.Disconnect, hc]
  generalize (Client.Disconnect c ok1).2 = c1 at h ⊢
  simp [Client.Disconnect, h]

/-- A transport behaviour that answers the initialize request with a
well-formed response for server `demo 1.0.0` but whose notification send
fails. -/
def initNotifyFailTB : TransportB :=
  { recvs := [some { id := .int64 1,
                     result := some (.initRes {} { name := "demo", version := "1.0.0" }) }],
    notifyOk := false }

/-- C3 (counterexample): a connected client performs `Initialize` against
a transport that answers the initialize request correctly but whose
notification send fails; `Initialize` returns the notification-send
error, yet the returned client state already has the initialized flag set
— refuting the claim that the client is not Initialized when sending the
notification fails. -/
theorem C3_counterexample :
    (Client.Initialize { connected := true, requestID := 0 } initNotifyFailTB).1 =
      .error .notifySendFailed ∧
    (Client.Initialize { connected := true, requestID := 0 } initNotifyFailTB).2.1.initialized =
      true := by
  decide

/-- C3 (amended): during `Initialize` the initialized flag is set
immediately after the successful initialize response is parsed and
BEFORE the `notifications/initialized` notification is sent; the
notification is the final transport action of the handshake, and if
sending it fails `Initialize` returns an error while the client remains
Initialized. -/
theorem C3_theorem (c : Client) (tr : TransportB) :
    ((c.Initialize tr).1 = .ok () →
      (c.Initialize tr).2.1.initialized = true ∧
      (c.Initialize tr).2.2.getLast? =
        some (.send (NewNotification "notifications/initialized"))) ∧
    ((c.Initialize tr).1 = .error .notifySendFailed →
      (c.Initialize tr).2.1.initialized = true ∧
      (c.Initialize tr).2.2.getLast? =
        some (.send (NewNotification "notifications/initialized"))) := by
  unfold Client.Initialize
  by_cases hco : c.IsConnected
  · simp only [hco, Bool.not_true, Bool.false_eq_true, if_false]
    rcases hr : (c.sendRequest tr "initialize").1 with e | resp
    · simp [hr]
    · simp only [hr]
      rcases he : resp.error with _ | err
      · rcases hres : resp.result with _ | res
        · simp [he, hres]
        · rcases res with ⟨caps, info⟩ | _ | _ | _ | _ | _ | _ | _
          · by_cases hn : tr.notifyOk <;> simp [he, hres, hn]
          all_goals simp [he, hres]
      · simp [he]
  · simp [hco]

/-- C3 (witness): the amended claim applied to the notification-failure
scenario of the counterexample. -/
theorem C3_witness :
    (Client.Initialize { connected := true, requestID := 0 } initNotifyFailTB).2.1.initialized =
      true ∧
    (Client.Initialize { connected := true, requestID := 0 } initNotifyFailTB).2.2.getLast? =
      some (.send (NewNotification "notifications/initialized")) :=
  (C3_theorem _ _).2 (by decide)

theorem runIDs_eq (reqs : List (TransportB × String)) (c : Client)
    (h0 : 0 ≤ c.requestID)
    (h : c.requestID + reqs.length < 9223372036854775808) :
    runIDs c reqs =
      (List.range reqs.length).map (fun i : Nat => c.requestID + (i : Int) + 1) := by
  induction reqs generalizing c with
  | nil => simp [runIDs]
  | cons hd tl ih =>
    obtain ⟨tr, m⟩ := hd
    simp only [List.length_cons] at h
    push_cast at h
    have hw : wrap64 (c.requestID + 1) = c.requestID + 1 := by
      apply wrap64_eq_self <;> norm_num <;> omega
    have hreq : (c.sendRequest tr m).2.1.requestID = c.requestID + 1 := by
      rw [sendRequest_requestID, hw]
    have ih' := ih (c.sendRequest tr m).2.1 (by rw [hreq]; omega)
      (by rw [hreq]; omega)
    simp only [runIDs, ih', hw, hreq, List.length_cons, List.range_succ_eq_map,
      List.map_cons, List.map_map]
    congr 1
    · simp
    · apply List.map_congr_left
      intro i _
      simp only [Function.comp]
      push_cast
      ring

/-- C5: the request identifiers assigned by one client instance are the
strictly increasing integers 1, 2, 3, ... — the sequence of identifiers
assigned over any run of requests from a fresh client is exactly
`[1, ..., k]` (within the int64 range), so the first is 1, each later one
is strictly greater than all earlier ones, and none is ever reused. -/
theorem C5_theorem (reqs : List (TransportB × String))
    (h : (reqs.length : Int) < 2 ^ 63) :
    runIDs NewClient reqs =
      (List.range reqs.length).map (fun i : Nat => (i : Int) + 1) ∧
    (runIDs NewClient reqs).Pairwise (· < ·) := by
  have h' : (reqs.length : Int) < 9223372036854775808 := by
    have e63 : (2 : Int) ^ 63 = 9223372036854775808 := by norm_num
    rw [e63] at h
    exact h
  have heq : runIDs NewClient reqs =
      (List.range reqs.length).map (fun i : Nat => (i : Int) + 1) := by
    have hrw := runIDs_eq reqs NewClient le_rfl (by simpa [NewClient] using h')
    simpa [NewClient] using hrw
  refine ⟨heq, ?_⟩
  rw [heq, List.pairwise_map]
  exact (List.pairwise_lt_range _).imp (fun hab => by omega)

/-- C5 (witness): three requests from a fresh client get identifiers
1, 2, 3. -/
theorem C5_witness :
    ((([({}, "tools/list"), ({}, "tools/call"), ({}, "prompts/list")] :
        List (TransportB × String)).length : Int) < 2 ^ 63) ∧
      runIDs NewClient
          [({}, "tools/list"), ({}, "tools/call"), ({}, "prompts/list")] =
        (List.range 3).map (fun i : Nat => (i : Int) + 1) :=
  ⟨by decide, (C5_theorem _ (by decide)).1⟩

theorem truncFloat_intCast (n : Int) : truncFloat (n : ℚ) = n := by
  unfold truncFloat
  rw [Rat.num_intCast, Rat.den_intCast]
  simp

theorem truncFloat_of_nonneg (q : ℚ) (h : 0 ≤ q) : truncFloat q = ⌊q⌋ := by
  unfold truncFloat
  rw [Int.tdiv_eq_ediv (by exact_mod_cast Rat.num_nonneg.mpr h) (by positivity),
    Rat.floor_def]

theorem toNat_digitChar (d : Nat) (h : d < 10) :
    (Char.ofNat (48 + d)).toNat = 48 + d := by
  interval_cases d <;> decide

theorem isDigitCh_digitChar (d : Nat) (h : d < 10) :
    isDigitCh (Char.ofNat (48 + d)) = true := by
  interval_cases d <;> decide

theorem foldl_digits (l : List Nat) (a : Nat) (h : ∀ d ∈ l, d < 10) :
    ((l.reverse.map fun d => Char.ofNat (48 + d)).foldl
        (fun acc c => acc * 10 + (c.toNat - 48)) a) =
      a * 10 ^ l.length + Nat.ofDigits 10 l := by
  induction l generalizing a with
  | nil => simp [Nat.ofDigits_nil]
  | cons d t ih =>
    simp only [List.reverse_cons, List.map_append, List.foldl_append,
      List.map_cons, List.map_nil, List.foldl_cons, List.foldl_nil,
      List.length_cons]
    rw [ih a (fun x hx => h x (List.mem_cons_of_mem _ hx))]
    rw [toNat_digitChar d (h d (List.mem_cons_self _ _))]
    rw [Nat.ofDigits_cons]
    simp only [Nat.add_sub_cancel_left, Nat.cast_id]
    ring

theorem natDecimalChars_spec (n : Nat) :
    (natDecimalChars n).all isDigitCh = true ∧
    (natDecimalChars n).isEmpty = false ∧
    (natDecimalChars n).foldl (fun a c => a * 10 + (c.toNat - 48)) 0 = n := by
  by_cases hn : n = 0
  · subst hn
    decide
  · unfold natDecimalChars
    rw [if_neg hn]
    refine ⟨?_, ?_, ?_⟩
    · rw [List.all_eq_true]
      intro c hc
      obtain ⟨d, hd, rfl⟩ := List.mem_map.mp hc
      exact isDigitCh_digitChar d
        (Nat.digits_lt_base (by norm_num) (List.mem_reverse.mp hd))
    · rw [List.isEmpty_eq_false]
      simp only [ne_eq, List.map_eq_nil_iff, List.reverse_eq_nil_iff]
      exact Nat.digits_ne_nil_iff_ne_zero.mpr hn
    · rw [foldl_digits _ 0 (fun d hd => Nat.digits_lt_base (by norm_num) hd)]
      simp [Nat.ofDigits_digits]

theorem parseInt64_all_digits (l : List Char) (hne : l.isEmpty = false)
    (hall : l.all isDigitCh = true)
    (hlt : ((l.foldl (fun a c => a * 10 + (c.toNat - 48)) 0 : Nat) : Int) < 2 ^ 63) :
    parseInt64 l =
      some ((l.foldl (fun a c => a * 10 + (c.toNat - 48)) 0 : Nat) : Int) := by
  match l with
  | [] => simp at hne
  | c :: rest =>
    have hc : isDigitCh c = true := by
      rw [List.all_cons, Bool.and_eq_true] at hall
      exact hall.1
    have h48 : 48 ≤ c.toNat := by
      rw [isDigitCh, Bool.and_eq_true, decide_eq_true_eq, decide_eq_true_eq] at hc
      exact hc.1
    have hminus : ¬(c = '-') := by
      intro hc'
      subst hc'
      exact absurd h48 (by decide)
    have hplus : ¬(c = '+') := by
      intro hc'
      subst hc'
      exact absurd h48 (by decide)
    simp only [parseInt64, if_neg hminus, if_neg hplus]
    unfold parseDigits
    rw [if_neg (by simp), if_pos hall]
    show (if (((c :: rest).foldl (fun a c => a * 10 + (c.toNat - 48)) 0 : Nat) : Int) < 2 ^ 63
        then some (((c :: rest).foldl (fun a c => a * 10 + (c.toNat - 48)) 0 : Nat) : Int)
        else none) =
      some (((c :: rest).foldl (fun a c => a * 10 + (c.toNat - 48)) 0 : Nat) : Int)
    rw [if_pos hlt]

theorem parseInt64_natDecimalChars (n : Nat) (h : (n : Int) < 2 ^ 63) :
    parseInt64 (natDecimalChars n) = some (n : Int) := by
  obtain ⟨hall, hne, hfold⟩ := natDecimalChars_spec n
  have := parseInt64_all_digits (natDecimalChars n) hne hall (by rw [hfold]; exact h)
  rw [hfold] at this
  exact this

/-- C2: for an outstanding request with integer identifier `n`, the
correlation check accepts the response identifier when it round-trips as
a native integer, as a floating-point number exactly encoding `n`, or as
the decimal numeric string of `n` — each compares equal to `n`. -/
theorem C2_theorem (n : Int) (h1 : 1 ≤ n) (h2 : n < 2 ^ 63) :
    isMatchingID (.int64 n) n = true ∧
    isMatchingID (.float (n : ℚ)) n = true ∧
    isMatchingID (.str (natDecimalChars n.toNat)) n = true := by
  refine ⟨by simp [isMatchingID], ?_, ?_⟩
  · simp [isMatchingID, truncFloat_intCast]
  · have hn : ((n.toNat : Nat) : Int) = n := Int.toNat_of_nonneg (by omega)
    have hp := parseInt64_natDecimalChars n.toNat (by rw [hn]; exact h2)
    simp [isMatchingID, hp, hn]

/-- C2 (witness): identifier 12 in all three wire encodings. -/
theorem C2_witness :
    ((1 : Int) ≤ 12 ∧ (12 : Int) < 2 ^ 63) ∧
    (isMatchingID (.int64 12) 12 = true ∧
      isMatchingID (.float ((12 : Int) : ℚ)) 12 = true ∧
      isMatchingID (.str (natDecimalChars (12 : Int).toNat)) 12 = true) :=
  ⟨⟨by decide, by decide⟩, C2_theorem 12 (by decide) (by decide)⟩

/-- C10: the correlation check truncates floating-point response
identifiers toward zero — a float identifier matches request `n` exactly
when its truncation equals `n`, so the non-integral identifier `n + 0.5`
is matched to request `n` — and an absent (`nil`) identifier never
matches any request. -/
theorem C10_theorem (n : Int) (q : ℚ) (h : 0 ≤ n) :
    (isMatchingID (.float q) n = true ↔ truncFloat q = n) ∧
    isMatchingID (.float ((n : ℚ) + 1 / 2)) n = true ∧
    isMatchingID .null n = false := by
  refine ⟨by simp [isMatchingID], ?_, by simp [isMatchingID]⟩
  have hn : (0 : ℚ) ≤ (n : ℚ) := by exact_mod_cast h
  have hq : (0 : ℚ) ≤ (n : ℚ) + 1 / 2 := by linarith
  have ht : truncFloat ((n : ℚ) + 1 / 2) = n := by
    rw [truncFloat_of_nonneg _ hq, add_comm, Int.floor_add_int]
    norm_num
  simp only [isMatchingID]
  rw [ht]
  simp

/-- C10 (witness): the float identifier 4.5 is matched to request 4, and
a nil identifier matches nothing. -/
theorem C10_witness :
    ((0 : Int) ≤ 4) ∧
    ((isMatchingID (.float (mkRat 9 2)) 4 = true ↔ truncFloat (mkRat 9 2) = 4) ∧
      isMatchingID (.float (((4 : Int) : ℚ) + 1 / 2)) 4 = true ∧
      isMatchingID .null 4 = false) :=
  ⟨by decide, C10_theorem 4 (mkRat 9 2) (by decide)⟩

/-- C6: `DiscoverAll` is port-probed descriptors, then container-derived
descriptors, then the static well-known bridge descriptor appended last,
with no deduplication (the length is the exact sum); against a host with
no open well-known ports and no matching containers it returns exactly
the one static bridge entry. -/
theorem C6_theorem (env env2 : Discovery.Env) (host host2 : String)
    (hp : ∀ p ∈ Discovery.commonPorts, env.portOpen p = false)
    (hc : ∀ ctr ∈ env.containers, Discovery.isMCPContainer ctr = false) :
    Discovery.DiscoverAll env host = [Discovery.dockerMCPEntry] ∧
    (Discovery.DiscoverAll env2 host2).getLast? = some Discovery.dockerMCPEntry ∧
    Discovery.DiscoverAll env2 host2 =
      Discovery.DiscoverTCPServers env2 host2 Discovery.commonPorts ++
        Discovery.DiscoverDockerServers env2 ++ [Discovery.dockerMCPEntry] ∧
    (Discovery.DiscoverAll env2 host2).length =
      (Discovery.DiscoverTCPServers env2 host2 Discovery.commonPorts).length +
        (Discovery.DiscoverDockerServers env2).length + 1 := by
  refine ⟨?_, ?_, ?_, ?_⟩
  · have h1 : Discovery.commonPorts.filter env.portOpen = [] := by
      rw [List.filter_eq_nil_iff]
      intro a ha
      simp [hp a ha]
    have h2 : env.containers.filter Discovery.isMCPContainer = [] := by
      rw [List.filter_eq_nil_iff]
      intro a ha
      simp [hc a ha]
    unfold Discovery.DiscoverAll Discovery.DiscoverCommonPorts
      Discovery.DiscoverTCPServers Discovery.DiscoverDockerServers
    by_cases hd : env.dockerAvailable <;> simp [h1, h2, hd]
  · unfold Discovery.DiscoverAll
    rw [List.getLast?_concat]
  · rfl
  · simp [Discovery.DiscoverAll, Discovery.DiscoverCommonPorts]
    omega

/-- C6 (witness): discovery against an environment with no open ports and
no containers returns exactly the static bridge entry. -/
theorem C6_witness :
    Discovery.DiscoverAll
        { portOpen := fun _ => false, dockerAvailable := false, containers := [] }
        "localhost" =
      [Discovery.dockerMCPEntry] :=
  (C6_theorem
    { portOpen := fun _ => false, dockerAvailable := false, containers := [] }
    { portOpen := fun _ => false, dockerAvailable := false, containers := [] }
    "localhost" "localhost" (by simp) (by simp)).1

/-- A connected STDIO transport whose pipe closes and kill succeed but
whose process `Wait()` reports an error. -/
def waitErrStdio : StdioTransport :=
  { connected := true, stdin := some {}, stdout := some {}, stderr := some {},
    process := some { waitErr := some "wait failed" } }

/-- C7 (counterexample): `Close` performs all five cleanup steps in
order, but the error of the wait step is discarded by the code
(`s.cmd.Wait()`'s return value is dropped), so a transport whose only
failing step is the wait returns NO aggregated error — refuting the claim
that the errors of all of these steps are collected into one aggregated
error. -/
theorem C7_counterexample :
    waitErrStdio.process = some { killErr := none, waitErr := some "wait failed" } ∧
    (waitErrStdio.close).2.1 =
      [.closeStdin, .closeStdout, .closeStderr, .killProcess, .waitProcess] ∧
    (waitErrStdio.close).1 = none := by
  decide

/-- C7 (amended): for a connected process-pipe transport with all handles
present, `Close` performs its cleanup steps in order — close stdin, close
stdout, close stderr, kill the process, wait for it — and aggregates the
errors of the three pipe closes and of the kill into one collected error
instead of returning at the first failure; the wait step's error is
discarded. -/
theorem C7_theorem (s : StdioTransport) (p1 p2 p3 : Pipe) (pr : ProcState)
    (hcn : s.connected = true) (h1 : s.stdin = some p1) (h2 : s.stdout = some p2)
    (h3 : s.stderr = some p3) (h4 : s.process = some pr) :
    (s.close).2.1 =
      [.closeStdin, .closeStdout, .closeStderr, .killProcess, .waitProcess] ∧
    (s.close).1 =
      (if (p1.closeErr.toList ++ p2.closeErr.toList ++ p3.closeErr.toList ++
            pr.killErr.toList).isEmpty
        then none
        else some (p1.closeErr.toList ++ p2.closeErr.toList ++
          p3.closeErr.toList ++ pr.killErr.toList)) ∧
    (s.close).2.2 = { connected := false } := by
  unfold StdioTransport.close
  simp [hcn, h1, h2, h3, h4]

/-- C7 (witness): a connected transport where every pipe close and the
kill fail; all five steps run and all four collectable errors are
aggregated into the one returned error. -/
theorem C7_witness :
    ((StdioTransport.close
        { connected := true, stdin := some { closeErr := some "e1" },
          stdout := some { closeErr := some "e2" },
          stderr := some { closeErr := some "e3" },
          process := some { killErr := some "e4" } }).1 =
      some ["e1", "e2", "e3", "e4"]) ∧
    ((StdioTransport.close
        { connected := true, stdin := some { closeErr := some "e1" },
          stdout := some { closeErr := some "e2" },
          stderr := some { closeErr := some "e3" },
          process := some { killErr := some "e4" } }).2.1 =
      [.closeStdin, .closeStdout, .closeStderr, .killProcess, .waitProcess]) :=
  ⟨by decide,
    (C7_theorem
      { connected := true, stdin := some { closeErr := some "e1" },
        stdout := some { closeErr := some "e2" },
        stderr := some { closeErr := some "e3" },
        process := some { killErr := some "e4" } }
      { closeErr := some "e1" } { closeErr := some "e2" } { closeErr := some "e3" }
      { killErr := some "e4" } rfl rfl rfl rfl rfl).1⟩
